import Mathlib

/-!
Shallow embedding of the class `DirectLineConversationService`
(src/directline_conversation_service.py).

Modelling conventions:

* The mutable session fields (`current_token`, `token_expires_at`,
  `conversation_id`, `watermark`) become the record `ServiceState`.
* HTTP I/O and the clock are an oracle `Env`: the k-th call to each endpoint
  and the k-th clock read are `Env` functions applied to per-kind call
  counters held in `Counters`; each HTTP request and each `time.sleep` also
  appends an `Event` to an observable trace, so theorems can speak about which
  requests a run actually issued.
* Python truthiness tests on the optional string / number fields become
  `strTruthy` / `intTruthy`; dict `.get(k)` becomes an `Option` field and
  `.get(k, d)` becomes `Option.getD`.
* Timestamps are integer seconds (`Int`); `time.sleep` has no effect on the
  oracle clock beyond recording an event (the clock stream is arbitrary).
* HTTP response bodies are modelled in exactly the fields the code inspects
  (`token`, `expires_in`, `conversationId`, `activities`, `watermark`,
  `response.text`, `response.content`); raw body echoes that the code merely
  copies into its result dict are carried as opaque strings or elided.
-/

/-- Python truthiness of an optional string: `None` and `""` are falsy. -/
def strTruthy : Option String → Bool
  | none => false
  | some s => decide (s ≠ "")

/-- Python truthiness of an optional integer timestamp: `None` and `0` are falsy. -/
def intTruthy : Option Int → Bool
  | none => false
  | some n => decide (n ≠ 0)

/-- Mutable session fields of `DirectLineConversationService.__init__`. -/
structure ServiceState where
  current_token : Option String
  token_expires_at : Option Int
  conversation_id : Option String
  watermark : Option String
  deriving DecidableEq, Repr

/-- One Direct Line activity as the code reads it: every field is accessed
with dict `.get`, hence optional.  `from_id` collapses
`activity.get('from', {}).get('id', ...)`: `none` means the sender id is
absent (missing `from` or missing `id`). -/
structure Activity where
  type : Option String := none
  from_id : Option String := none
  from_name : Option String := none
  text : Option String := none
  locale : Option String := none
  timestamp : Option String := none
  channelId : Option String := none
  attachments : List String := []
  deriving DecidableEq, Repr

/-- Outcome of `POST tokens/generate`: an HTTP response with the parsed
`token` / `expires_in` fields and the raw text, or a transport exception. -/
inductive TokenOutcome where
  | resp (status : Int) (token : Option String) (expires_in : Option Int) (text : String)
  | exn (msg : String)
  deriving DecidableEq, Repr

/-- Outcome of `POST conversations`: parsed `conversationId`, or an exception. -/
inductive ConvOutcome where
  | resp (status : Int) (conversationId : Option String) (text : String)
  | exn (msg : String)
  deriving DecidableEq, Repr

/-- Outcome of `POST conversations/{id}/activities`: `hasContent` mirrors
`response.content` truthiness, `body` the parsed JSON body (opaque). -/
inductive SendOutcome where
  | resp (status : Int) (hasContent : Bool) (body : String) (text : String)
  | exn (msg : String)
  deriving DecidableEq, Repr

/-- Outcome of `GET conversations/{id}/activities`: parsed `activities` and
`watermark` fields (each optional, mirroring `.get`), or an exception. -/
inductive ActOutcome where
  | resp (status : Int) (activities : Option (List Activity)) (watermark : Option String) (text : String)
  | exn (msg : String)
  deriving DecidableEq, Repr

/-- Observable effects of a run: the HTTP requests issued and the sleeps.
For a GET of activities the event records the conversation id, the
`watermark` argument passed to `get_activities` (the override) and the
watermark query parameter actually put on the URL. -/
inductive Event where
  | httpPostToken
  | httpPostConversations
  | httpPostActivity (conversationId : String) (text : String)
  | httpGetActivities (conversationId : String) (override : Option String) (watermarkParam : Option String)
  | sleepCall (seconds : Rat)
  deriving DecidableEq, Repr

/-- How many times each oracle stream has been consumed. -/
structure Counters where
  timeCalls : Nat := 0
  tokenCalls : Nat := 0
  convCalls : Nat := 0
  sendCalls : Nat := 0
  actCalls : Nat := 0
  sleepCalls : Nat := 0
  deriving DecidableEq, Repr

/-- The external world: the clock stream and one response stream per endpoint. -/
structure Env where
  times : Nat → Int
  tokenResp : Nat → TokenOutcome
  convResp : Nat → ConvOutcome
  sendResp : Nat → SendOutcome
  actResp : Nat → ActOutcome

/-- Full interpreter state: session fields, oracle counters, event trace. -/
structure RunState where
  svc : ServiceState
  ctr : Counters
  trace : List Event
  deriving DecidableEq, Repr

/-- State of a freshly constructed service (all session fields `None`). -/
def fresh : RunState :=
  { svc := { current_token := none, token_expires_at := none,
             conversation_id := none, watermark := none }
  , ctr := {}
  , trace := [] }

/-- One `datetime.now(timezone.utc).timestamp()` read. -/
def readTime (env : Env) (rs : RunState) : Int × RunState :=
  (env.times rs.ctr.timeCalls,
   { rs with ctr := { rs.ctr with timeCalls := rs.ctr.timeCalls + 1 } })

/-- One `POST tokens/generate` request. -/
def httpTokenCall (env : Env) (rs : RunState) : TokenOutcome × RunState :=
  (env.tokenResp rs.ctr.tokenCalls,
   { rs with ctr := { rs.ctr with tokenCalls := rs.ctr.tokenCalls + 1 },
             trace := rs.trace ++ [Event.httpPostToken] })

/-- One `POST conversations` request. -/
def httpConvCall (env : Env) (rs : RunState) : ConvOutcome × RunState :=
  (env.convResp rs.ctr.convCalls,
   { rs with ctr := { rs.ctr with convCalls := rs.ctr.convCalls + 1 },
             trace := rs.trace ++ [Event.httpPostConversations] })

/-- One `POST conversations/{id}/activities` request. -/
def httpSendCall (env : Env) (cid : String) (text : String) (rs : RunState) : SendOutcome × RunState :=
  (env.sendResp rs.ctr.sendCalls,
   { rs with ctr := { rs.ctr with sendCalls := rs.ctr.sendCalls + 1 },
             trace := rs.trace ++ [Event.httpPostActivity cid text] })

/-- The watermark query parameter `get_activities` puts on the URL:
present when `watermark or self.watermark` is truthy, and then equal to
that value (`override` takes precedence when truthy). -/
def wparamOf (override stored : Option String) : Option String :=
  if strTruthy override || strTruthy stored then
    some ((if strTruthy override then override else stored).getD "")
  else none

/-- One `GET conversations/{id}/activities` request; the event records the
override argument and the watermark parameter actually sent. -/
def httpActCall (env : Env) (cid : String) (override stored : Option String) (rs : RunState) : ActOutcome × RunState :=
  (env.actResp rs.ctr.actCalls,
   { rs with ctr := { rs.ctr with actCalls := rs.ctr.actCalls + 1 },
             trace := rs.trace ++ [Event.httpGetActivities cid override (wparamOf override stored)] })

/-- One `time.sleep(wait_time)` call. -/
def recordSleep (seconds : Rat) (rs : RunState) : RunState :=
  { rs with ctr := { rs.ctr with sleepCalls := rs.ctr.sleepCalls + 1 },
            trace := rs.trace ++ [Event.sleepCall seconds] }

/-- Result dict of `generate_direct_line_token`. -/
inductive TokenGenResult where
  | success (token : Option String) (expires_in : Int)
  | failure (error : String)
  deriving DecidableEq, Repr

/-- The `result.get("success", False)` read on a `TokenGenResult`. -/
def TokenGenResult.isSuccess : TokenGenResult → Bool
  | .success .. => true
  | .failure .. => false

/-- Embedding of `generate_direct_line_token` (lines 71-117): POST to the
token endpoint; on 200 store the token, compute absolute expiry
`now + expires_in` (default 3600) and reset `conversation_id` and
`watermark`; otherwise report a structured failure without touching state. -/
def generate_direct_line_token (env : Env) (rs : RunState) : TokenGenResult × RunState :=
  match httpTokenCall env rs with
  | (TokenOutcome.resp status token expiresIn text, rs1) =>
      if status == 200 then
        match readTime env { rs1 with svc := { rs1.svc with current_token := token } } with
        | (now, rs3) =>
            (TokenGenResult.success token (expiresIn.getD 3600),
             { rs3 with svc := { rs3.svc with
                 token_expires_at := some (now + expiresIn.getD 3600),
                 conversation_id := none,
                 watermark := none } })
      else
        (TokenGenResult.failure ("トークン生成失敗: " ++ toString status ++ " - " ++ text), rs1)
  | (TokenOutcome.exn msg, rs1) =>
      (TokenGenResult.failure ("トークン生成エラー: " ++ msg), rs1)

/-- The cached-token validity test at the top of `ensure_token_available`
(line 123-125): token truthy, expiry truthy, and
`now < token_expires_at - 300`.  The clock is read only when the first two
conjuncts hold (Python short-circuit). -/
def tokenStillValid (env : Env) (rs : RunState) : Bool × RunState :=
  if strTruthy rs.svc.current_token && intTruthy rs.svc.token_expires_at then
    match readTime env rs with
    | (now, rs1) => (decide (now < rs1.svc.token_expires_at.getD 0 - 300), rs1)
  else
    (false, rs)

/-- Embedding of `ensure_token_available` (lines 119-137): reuse a valid
cached token (the reuse branch reads the clock once more for the logged
remaining time); otherwise reset `conversation_id` and `watermark` and fetch
a new token, returning its `success` flag. -/
def ensure_token_available (env : Env) (rs : RunState) : Bool × RunState :=
  match tokenStillValid env rs with
  | (true, rs1) => (true, (readTime env rs1).2)
  | (false, rs1) =>
      match generate_direct_line_token env
        { rs1 with svc := { rs1.svc with conversation_id := none, watermark := none } } with
      | (r, rs3) => (r.isSuccess, rs3)

/-- Result dict of `start_conversation`.  The `conversation_data` echo of the
raw body is elided. -/
inductive ConvResult where
  | success (conversation_id : String)
  | failure (error : String)
  deriving DecidableEq, Repr

/-- Embedding of `start_conversation` (lines 139-178): ensure a token, POST
to the conversations endpoint; on 200/201 with a truthy `conversationId`
store it and clear the watermark; a 2xx body without an id is the
"no id returned" failure; other statuses and exceptions are failures. -/
def start_conversation (env : Env) (rs : RunState) : ConvResult × RunState :=
  match ensure_token_available env rs with
  | (false, rs1) => (ConvResult.failure "トークンの取得に失敗しました", rs1)
  | (true, rs1) =>
      match httpConvCall env rs1 with
      | (ConvOutcome.resp status convId text, rs2) =>
          if status == 200 || status == 201 then
            if strTruthy convId then
              (ConvResult.success (convId.getD ""),
               { rs2 with svc := { rs2.svc with conversation_id := convId, watermark := none } })
            else
              (ConvResult.failure "会話IDが取得できませんでした", rs2)
          else
            (ConvResult.failure ("会話開始失敗: " ++ toString status ++ " - " ++ text), rs2)
      | (ConvOutcome.exn msg, rs2) =>
          (ConvResult.failure ("会話開始エラー: " ++ msg), rs2)

/-- Result dict of `send_message`.  `response` is `none` when the HTTP body
was empty (`response.json() if response.content else {}` gave the empty
dict); `status_code` is present exactly in the branches that put it in the
Python dict. -/
inductive SendResult where
  | success (status_code : Int) (response : Option String) (conversation_id : Option String) (activity : Activity)
  | failure (error : String) (status_code : Option Int)
  deriving DecidableEq, Repr

/-- The `send_result["success"]` read. -/
def SendResult.isSuccess : SendResult → Bool
  | .success .. => true
  | .failure .. => false

/-- Step 3 of `send_message` (lines 203-260): build the message activity
(with a fresh clock read for its timestamp) and POST it; 200/201/202 is
success carrying the raw body, the conversation id and the activity sent. -/
def sendStep3 (env : Env) (message : String) (rs : RunState) : SendResult × RunState :=
  match readTime env rs with
  | (now, rs1) =>
      match httpSendCall env (rs1.svc.conversation_id.getD "") message rs1 with
      | (SendOutcome.resp status hasContent body text, rs2) =>
          if status == 200 || status == 201 || status == 202 then
            (SendResult.success status (if hasContent then some body else none)
               rs2.svc.conversation_id
               { type := some "message", from_id := some "user123", from_name := some "Test User",
                 text := some message, locale := some "ja-JP",
                 timestamp := some (toString now), channelId := some "directline" }, rs2)
          else
            (SendResult.failure ("メッセージ送信失敗: " ++ toString status ++ " - " ++ text) (some status), rs2)
      | (SendOutcome.exn msg, rs2) =>
          (SendResult.failure ("メッセージ送信エラー: " ++ msg) none, rs2)

/-- Embedding of `send_message` (lines 180-260): ensure a token; if no
conversation is established start one (lazy session start), propagating its
failure; then perform the POST of the activity. -/
def send_message (env : Env) (message : String) (rs : RunState) : SendResult × RunState :=
  match ensure_token_available env rs with
  | (false, rs1) => (SendResult.failure "トークンの取得に失敗しました" none, rs1)
  | (true, rs1) =>
      if strTruthy rs1.svc.conversation_id then
        sendStep3 env message rs1
      else
        match start_conversation env rs1 with
        | (ConvResult.failure e, rs2) =>
            (SendResult.failure ("会話開始失敗: " ++ e) none, rs2)
        | (ConvResult.success _, rs2) =>
            sendStep3 env message rs2

/-- The bot-response collection loop of `get_activities` (lines 315-329):
an activity contributes its text when the text is truthy (present and
non-empty) and the sender id (default "unknown") differs from the local
user id "user123"; stream order is preserved. -/
def botResponsesOf (activities : List Activity) : List String :=
  activities.filterMap fun a =>
    let text := a.text.getD ""
    let from_id := a.from_id.getD "unknown"
    if text ≠ "" then
      if from_id ≠ "user123" then some text else none
    else none

/-- Result dict of `get_activities`. -/
inductive GetResult where
  | success (activities : List Activity) (watermark : Option String) (bot_responses : List String) (total_activities : Nat)
  | failure (error : String) (status_code : Option Int)
  deriving DecidableEq, Repr

/-- The `get_result["success"]` read. -/
def GetResult.isSuccess : GetResult → Bool
  | .success .. => true
  | .failure .. => false

/-- Whether the result is a success whose `bot_responses` list is truthy. -/
def GetResult.hasBotResponses : GetResult → Bool
  | .success _ _ br _ => decide (br ≠ [])
  | .failure _ _ => false

/-- Embedding of `get_activities` (lines 262-360): ensure a token, require a
conversation id, GET the activities with the watermark query parameter from
`wparamOf` (override argument, else stored watermark, when truthy); on 200
parse activities (default `[]`) and the new watermark, replace the stored
watermark when the new one is truthy, and collect bot responses. -/
def get_activities (env : Env) (watermark : Option String) (rs : RunState) : GetResult × RunState :=
  match ensure_token_available env rs with
  | (false, rs1) => (GetResult.failure "トークンの取得に失敗しました" none, rs1)
  | (true, rs1) =>
      if strTruthy rs1.svc.conversation_id then
        match httpActCall env (rs1.svc.conversation_id.getD "") watermark rs1.svc.watermark rs1 with
        | (ActOutcome.resp status activities newWatermark text, rs2) =>
            if status == 200 then
              (GetResult.success (activities.getD []) newWatermark
                 (botResponsesOf (activities.getD [])) (activities.getD []).length,
               if strTruthy newWatermark then
                 { rs2 with svc := { rs2.svc with watermark := newWatermark } }
               else rs2)
            else
              (GetResult.failure ("応答取得失敗: " ++ toString status ++ " - " ++ text) (some status), rs2)
        | (ActOutcome.exn msg, rs2) =>
            (GetResult.failure ("応答取得エラー: " ++ msg) none, rs2)
      else
        (GetResult.failure "会話IDが設定されていません" none, rs1)

/-- Result dict of `send_and_get_response`: a send failure is propagated
verbatim; a success carries message, bot responses, both sub-results and the
1-based attempt count; exhaustion carries the send result and
`attempts = max_retries`. -/
inductive SAGRResult where
  | sendFailed (send_result : SendResult)
  | success (message_sent : String) (bot_responses : List String) (send_result : SendResult) (get_result : GetResult) (attempts : Int)
  | exhausted (error : String) (message_sent : String) (send_result : SendResult) (attempts : Int)
  deriving DecidableEq, Repr

/-- The `attempts` field of a `send_and_get_response` result, when present. -/
def SAGRResult.attemptsOf : SAGRResult → Option Int
  | .sendFailed _ => none
  | .success _ _ _ _ a => some a
  | .exhausted _ _ _ a => some a

/-- The retries-exhausted error message (line 411). -/
def exhaustMsg (max_retries : Int) : String :=
  "ボット応答を" ++ toString max_retries ++ "回の試行で取得できませんでした"

/-- The `for attempt in range(max_retries)` polling loop of
`send_and_get_response` (lines 377-415): each iteration sleeps, calls
`get_activities` with no watermark argument, returns success on a truthy
`bot_responses` list with `attempts = attempt + 1`, and otherwise (empty
list or poll failure) continues; exhausting the range yields the failure
with `attempts = max_retries`.  `fuel` is the number of iterations left
(initially `max_retries.toNat`, matching `range`), `attempt` the 0-based
index. -/
def sagrLoop (env : Env) (message : String) (wait_time : Rat) (send_result : SendResult)
    (max_retries : Int) : Nat → Nat → RunState → SAGRResult × RunState
  | _, 0, rs =>
      (SAGRResult.exhausted (exhaustMsg max_retries) message send_result max_retries, rs)
  | attempt, fuel + 1, rs =>
      match get_activities env none (recordSleep wait_time rs) with
      | (GetResult.success acts wm br tot, rs2) =>
          if br = [] then
            sagrLoop env message wait_time send_result max_retries (attempt + 1) fuel rs2
          else
            (SAGRResult.success message br send_result (GetResult.success acts wm br tot) ((attempt : Int) + 1), rs2)
      | (GetResult.failure _ _, rs2) =>
          sagrLoop env message wait_time send_result max_retries (attempt + 1) fuel rs2

/-- Embedding of `send_and_get_response` (lines 362-415): send the message,
propagate a send failure immediately, otherwise run the polling loop. -/
def send_and_get_response (env : Env) (message : String) (wait_time : Rat) (max_retries : Int) (rs : RunState) : SAGRResult × RunState :=
  match send_message env message rs with
  | (sr, rs1) =>
      if sr.isSuccess then
        sagrLoop env message wait_time sr max_retries 0 max_retries.toNat rs1
      else
        (SAGRResult.sendFailed sr, rs1)

/-- The watermark query parameter recorded in a GET-activities event. -/
def Event.activityGetParam : Event → Option (Option String)
  | Event.httpGetActivities _ _ p => some p
  | _ => none

/-- The override argument recorded in a GET-activities event. -/
def Event.activityGetOverride : Event → Option (Option String)
  | Event.httpGetActivities _ ov _ => some ov
  | _ => none

/-! Preservation lemmas: each operation touches only its own oracle counters,
so polling-related counters survive the token / conversation / send path. -/

theorem readTime_ctr (env : Env) (rs : RunState) :
    (readTime env rs).2.ctr.tokenCalls = rs.ctr.tokenCalls ∧
    (readTime env rs).2.ctr.actCalls = rs.ctr.actCalls ∧
    (readTime env rs).2.ctr.sleepCalls = rs.ctr.sleepCalls ∧
    (readTime env rs).2.svc = rs.svc := ⟨rfl, rfl, rfl, rfl⟩

theorem httpTokenCall_ctr (env : Env) (rs : RunState) :
    (httpTokenCall env rs).2.ctr.actCalls = rs.ctr.actCalls ∧
    (httpTokenCall env rs).2.ctr.sleepCalls = rs.ctr.sleepCalls ∧
    (httpTokenCall env rs).2.ctr.tokenCalls = rs.ctr.tokenCalls + 1 := ⟨rfl, rfl, rfl⟩

theorem httpConvCall_ctr (env : Env) (rs : RunState) :
    (httpConvCall env rs).2.ctr.actCalls = rs.ctr.actCalls ∧
    (httpConvCall env rs).2.ctr.sleepCalls = rs.ctr.sleepCalls := ⟨rfl, rfl⟩

theorem httpSendCall_ctr (env : Env) (cid text : String) (rs : RunState) :
    (httpSendCall env cid text rs).2.ctr.actCalls = rs.ctr.actCalls ∧
    (httpSendCall env cid text rs).2.ctr.sleepCalls = rs.ctr.sleepCalls := ⟨rfl, rfl⟩

theorem httpActCall_ctr (env : Env) (cid : String) (ov st : Option String) (rs : RunState) :
    (httpActCall env cid ov st rs).2.ctr.sleepCalls = rs.ctr.sleepCalls := rfl

theorem tokenStillValid_state (env : Env) (rs : RunState) :
    (tokenStillValid env rs).2.svc = rs.svc ∧
    (tokenStillValid env rs).2.trace = rs.trace ∧
    (tokenStillValid env rs).2.ctr.tokenCalls = rs.ctr.tokenCalls ∧
    (tokenStillValid env rs).2.ctr.actCalls = rs.ctr.actCalls ∧
    (tokenStillValid env rs).2.ctr.sleepCalls = rs.ctr.sleepCalls := by
  unfold tokenStillValid readTime
  split <;> simp

theorem generate_ctr (env : Env) (rs : RunState) :
    (generate_direct_line_token env rs).2.ctr.actCalls = rs.ctr.actCalls ∧
    (generate_direct_line_token env rs).2.ctr.sleepCalls = rs.ctr.sleepCalls ∧
    (generate_direct_line_token env rs).2.ctr.tokenCalls = rs.ctr.tokenCalls + 1 := by
  rcases h : generate_direct_line_token env rs with ⟨r, rs9⟩
  show rs9.ctr.actCalls = rs.ctr.actCalls ∧ rs9.ctr.sleepCalls = rs.ctr.sleepCalls ∧
    rs9.ctr.tokenCalls = rs.ctr.tokenCalls + 1
  unfold generate_direct_line_token at h
  split at h
  case _ =>
    rename_i status token expiresIn text rs1 heq
    have hc := httpTokenCall_ctr env rs
    rw [heq] at hc
    split at h
    · split at h
      rename_i now rs3 heq3
      have hr := readTime_ctr env { rs1 with svc := { rs1.svc with current_token := token } }
      rw [heq3] at hr
      cases h
      exact ⟨hr.2.1.trans hc.1, hr.2.2.1.trans hc.2.1, hr.1.trans hc.2.2⟩
    · cases h
      exact ⟨hc.1, hc.2.1, hc.2.2⟩
  case _ =>
    rename_i m rs1 heq
    have hc := httpTokenCall_ctr env rs
    rw [heq] at hc
    cases h
    exact ⟨hc.1, hc.2.1, hc.2.2⟩

theorem ensure_act_sleep (env : Env) (rs : RunState) :
    (ensure_token_available env rs).2.ctr.actCalls = rs.ctr.actCalls ∧
    (ensure_token_available env rs).2.ctr.sleepCalls = rs.ctr.sleepCalls := by
  rcases h : ensure_token_available env rs with ⟨b, rs9⟩
  show rs9.ctr.actCalls = rs.ctr.actCalls ∧ rs9.ctr.sleepCalls = rs.ctr.sleepCalls
  have h1 := tokenStillValid_state env rs
  unfold ensure_token_available at h
  split at h
  case _ rs1 heq =>
    rw [heq] at h1
    have hr := readTime_ctr env rs1
    cases h
    exact ⟨hr.2.1.trans h1.2.2.2.1, hr.2.2.1.trans h1.2.2.2.2⟩
  case _ rs1 heq =>
    rw [heq] at h1
    have h2 := generate_ctr env
      { rs1 with svc := { rs1.svc with conversation_id := none, watermark := none } }
    split at h
    rename_i r2 rs3 heq2
    rw [heq2] at h2
    cases h
    exact ⟨h2.1.trans h1.2.2.2.1, h2.2.1.trans h1.2.2.2.2⟩

theorem start_conversation_act_sleep (env : Env) (rs : RunState) :
    (start_conversation env rs).2.ctr.actCalls = rs.ctr.actCalls ∧
    (start_conversation env rs).2.ctr.sleepCalls = rs.ctr.sleepCalls := by
  rcases h : start_conversation env rs with ⟨r, rs9⟩
  show rs9.ctr.actCalls = rs.ctr.actCalls ∧ rs9.ctr.sleepCalls = rs.ctr.sleepCalls
  have h1 := ensure_act_sleep env rs
  unfold start_conversation at h
  split at h
  case _ rs1 heq =>
    rw [heq] at h1; cases h; exact h1
  case _ rs1 heq =>
    rw [heq] at h1
    split at h
    case _ =>
      rename_i status convId text rs2 heq2
      have h2 := httpConvCall_ctr env rs1
      rw [heq2] at h2
      split at h
      · split at h <;> cases h <;> exact ⟨h2.1.trans h1.1, h2.2.trans h1.2⟩
      · cases h; exact ⟨h2.1.trans h1.1, h2.2.trans h1.2⟩
    case _ =>
      rename_i m rs2 heq2
      have h2 := httpConvCall_ctr env rs1
      rw [heq2] at h2
      cases h; exact ⟨h2.1.trans h1.1, h2.2.trans h1.2⟩

theorem sendStep3_act_sleep (env : Env) (msg : String) (rs : RunState) :
    (sendStep3 env msg rs).2.ctr.actCalls = rs.ctr.actCalls ∧
    (sendStep3 env msg rs).2.ctr.sleepCalls = rs.ctr.sleepCalls := by
  rcases h : sendStep3 env msg rs with ⟨r, rs9⟩
  show rs9.ctr.actCalls = rs.ctr.actCalls ∧ rs9.ctr.sleepCalls = rs.ctr.sleepCalls
  unfold sendStep3 at h
  split at h
  rename_i now rs1 heq
  have hr := readTime_ctr env rs
  rw [heq] at hr
  have h2 := httpSendCall_ctr env (rs1.svc.conversation_id.getD "") msg rs1
  split at h
  case _ =>
    rename_i status hasContent body text rs2 heq2
    rw [heq2] at h2
    split at h <;> cases h <;> exact ⟨h2.1.trans hr.2.1, h2.2.trans hr.2.2.1⟩
  case _ =>
    rename_i m rs2 heq2
    rw [heq2] at h2
    cases h; exact ⟨h2.1.trans hr.2.1, h2.2.trans hr.2.2.1⟩

theorem send_message_act_sleep (env : Env) (msg : String) (rs : RunState) :
    (send_message env msg rs).2.ctr.actCalls = rs.ctr.actCalls ∧
    (send_message env msg rs).2.ctr.sleepCalls = rs.ctr.sleepCalls := by
  rcases h : send_message env msg rs with ⟨r, rs9⟩
  show rs9.ctr.actCalls = rs.ctr.actCalls ∧ rs9.ctr.sleepCalls = rs.ctr.sleepCalls
  have h1 := ensure_act_sleep env rs
  unfold send_message at h
  split at h
  case _ rs1 heq =>
    rw [heq] at h1; cases h; exact h1
  case _ rs1 heq =>
    rw [heq] at h1
    split at h
    · have h3 := sendStep3_act_sleep env msg rs1
      rw [h] at h3
      exact ⟨h3.1.trans h1.1, h3.2.trans h1.2⟩
    · split at h
      case _ =>
        rename_i e rs2 heq2
        have h2 := start_conversation_act_sleep env rs1
        rw [heq2] at h2
        cases h
        exact ⟨h2.1.trans h1.1, h2.2.trans h1.2⟩
      case _ =>
        rename_i c rs2 heq2
        have h2 := start_conversation_act_sleep env rs1
        rw [heq2] at h2
        have h3 := sendStep3_act_sleep env msg rs2
        rw [h] at h3
        exact ⟨h3.1.trans (h2.1.trans h1.1), h3.2.trans (h2.2.trans h1.2)⟩

theorem get_activities_sleep (env : Env) (ov : Option String) (rs : RunState) :
    (get_activities env ov rs).2.ctr.sleepCalls = rs.ctr.sleepCalls := by
  rcases h : get_activities env ov rs with ⟨r, rs9⟩
  show rs9.ctr.sleepCalls = rs.ctr.sleepCalls
  have h1 := ensure_act_sleep env rs
  unfold get_activities at h
  split at h
  case _ rs1 heq =>
    rw [heq] at h1; cases h; exact h1.2
  case _ rs1 heq =>
    rw [heq] at h1
    split at h
    · have h2 := httpActCall_ctr env (rs1.svc.conversation_id.getD "") ov rs1.svc.watermark rs1
      split at h
      case _ =>
        rename_i status acts nw text rs2 heq2
        rw [heq2] at h2
        split at h
        · split at h <;> cases h <;> exact h2.trans h1.2
        · cases h; exact h2.trans h1.2
      case _ =>
        rename_i m rs2 heq2
        rw [heq2] at h2
        cases h; exact h2.trans h1.2
    · cases h; exact h1.2

/-- A token fetch never sets `conversation_id` or `watermark` to a value:
if both are already cleared they stay cleared whatever the fetch outcome. -/
theorem generate_keeps_cleared (env : Env) (rs : RunState)
    (h1 : rs.svc.conversation_id = none) (h2 : rs.svc.watermark = none) :
    (generate_direct_line_token env rs).2.svc.conversation_id = none ∧
    (generate_direct_line_token env rs).2.svc.watermark = none := by
  unfold generate_direct_line_token httpTokenCall readTime
  rcases ho : env.tokenResp rs.ctr.tokenCalls with ⟨status, token, ei, text⟩ | msg
  · by_cases h : (status == 200) = true <;> simp [h, h1, h2]
  · simp [h1, h2]

/-! Concrete worlds used by the claim-specific runs. -/

/-- Activity-poll responses for the C1 run: the first poll returns an empty
activity list with watermark "w1", later polls watermark "w2". -/
def c1Acts : Nat → ActOutcome
  | 0 => ActOutcome.resp 200 (some []) (some "w1") ""
  | _ => ActOutcome.resp 200 (some []) (some "w2") ""

/-- World for the C1 run: token, conversation and send all succeed. -/
def c1Env : Env :=
  { times := fun _ => 0
  , tokenResp := fun _ => TokenOutcome.resp 200 (some "tok") (some 3600) ""
  , convResp := fun _ => ConvOutcome.resp 200 (some "conv1") ""
  , sendResp := fun _ => SendOutcome.resp 200 true "ok" ""
  , actResp := c1Acts }

/-- C1: concrete run refuting the claim that every polling attempt of
`send_and_get_response` re-reads the full visible activity buffer
unrestricted by the stored watermark.  Both polls of this run are made with
no watermark override (first conjunct), yet the second poll's GET request
carries the watermark "w1" that the first poll stored (second conjunct), so
it is not true that every attempt's fetch goes out without a watermark
restriction (third conjunct).  This divergence contradicts the source's own
comments on lines 376 and 382 ("check all activities without using the
watermark"), which state the claimed behaviour. -/
theorem watermark_restricts_retry_fetch :
    ((send_and_get_response c1Env "hi" 2 2 fresh).2.trace.filterMap Event.activityGetOverride
       = [none, none])
    ∧ ((send_and_get_response c1Env "hi" 2 2 fresh).2.trace.filterMap Event.activityGetParam
       = [none, some "w1"])
    ∧ ¬ (∀ p ∈ (send_and_get_response c1Env "hi" 2 2 fresh).2.trace.filterMap Event.activityGetParam,
          p = none) := by
  refine ⟨by decide, by decide, by decide⟩

/-- C4: a failing send short-circuits polling: `send_and_get_response`
returns the `send_message` failure verbatim, and the state right after the
send — which is also the final state — shows zero GET-activities calls and
zero sleeps beyond those already in the initial state. -/
theorem send_failure_short_circuit (env : Env) (msg : String) (w : Rat) (mr : Int)
    (rs : RunState) (sr : SendResult) (rs1 : RunState)
    (hsend : send_message env msg rs = (sr, rs1))
    (hfail : sr.isSuccess = false) :
    send_and_get_response env msg w mr rs = (SAGRResult.sendFailed sr, rs1)
    ∧ rs1.ctr.actCalls = rs.ctr.actCalls
    ∧ rs1.ctr.sleepCalls = rs.ctr.sleepCalls := by
  have hp := send_message_act_sleep env msg rs
  rw [hsend] at hp
  refine ⟨?_, hp.1, hp.2⟩
  unfold send_and_get_response
  rw [hsend]
  simp [hfail]

/-- World for the C4 witness run: the activity POST returns status 500. -/
def c4Env : Env :=
  { times := fun _ => 0
  , tokenResp := fun _ => TokenOutcome.resp 200 (some "tok") (some 3600) ""
  , convResp := fun _ => ConvOutcome.resp 200 (some "conv1") ""
  , sendResp := fun _ => SendOutcome.resp 500 false "" "server error"
  , actResp := fun _ => ActOutcome.exn "unreachable" }

theorem send_failure_short_circuit_witness :
    send_and_get_response c4Env "hi" 2 5 fresh
      = (SAGRResult.sendFailed (send_message c4Env "hi" fresh).1, (send_message c4Env "hi" fresh).2)
    ∧ (send_message c4Env "hi" fresh).2.ctr.actCalls = fresh.ctr.actCalls
    ∧ (send_message c4Env "hi" fresh).2.ctr.sleepCalls = fresh.ctr.sleepCalls :=
  send_failure_short_circuit c4Env "hi" 2 5 fresh (send_message c4Env "hi" fresh).1
    (send_message c4Env "hi" fresh).2 rfl (by decide)

/-- C6: whenever `generate_direct_line_token` succeeds (a new token was
fetched), the resulting session has `conversation_id` and `watermark` reset
to absent, whatever values they held before. -/
theorem token_refresh_clears_scope (env : Env) (rs : RunState)
    (r : TokenGenResult) (rs' : RunState)
    (h : generate_direct_line_token env rs = (r, rs'))
    (hs : r.isSuccess = true) :
    rs'.svc.conversation_id = none ∧ rs'.svc.watermark = none := by
  unfold generate_direct_line_token at h
  split at h
  case _ =>
    rename_i status token expiresIn text rs1 heq
    split at h
    · split at h
      cases h
      exact ⟨rfl, rfl⟩
    · cases h
      simp [TokenGenResult.isSuccess] at hs
  case _ =>
    rename_i m rs1 heq
    cases h
    simp [TokenGenResult.isSuccess] at hs

/-- Session state for the C6 witness: an old token with a live conversation
and watermark. -/
def c6RS : RunState :=
  { svc := { current_token := some "old", token_expires_at := some 100,
             conversation_id := some "conv0", watermark := some "w0" }
  , ctr := {}, trace := [] }

theorem token_refresh_clears_scope_witness :
    (generate_direct_line_token c1Env c6RS).2.svc.conversation_id = none ∧
    (generate_direct_line_token c1Env c6RS).2.svc.watermark = none :=
  token_refresh_clears_scope c1Env c6RS (generate_direct_line_token c1Env c6RS).1
    (generate_direct_line_token c1Env c6RS).2 rfl (by decide)

/-- C9: when the cached-token validity check fails, `ensure_token_available`
resets `conversation_id` and `watermark` before attempting the token fetch,
so both are absent afterwards even when the fetch itself fails. -/
theorem refresh_resets_before_fetch (env : Env) (rs : RunState)
    (h : (tokenStillValid env rs).1 = false) :
    (ensure_token_available env rs).2.svc.conversation_id = none ∧
    (ensure_token_available env rs).2.svc.watermark = none := by
  rcases hr : ensure_token_available env rs with ⟨b, rs9⟩
  show rs9.svc.conversation_id = none ∧ rs9.svc.watermark = none
  unfold ensure_token_available at hr
  split at hr
  case _ rs1 heq =>
    rw [heq] at h
    simp at h
  case _ rs1 heq =>
    have h2 := generate_keeps_cleared env
      { rs1 with svc := { rs1.svc with conversation_id := none, watermark := none } } rfl rfl
    split at hr
    rename_i r2 rs3 heq2
    rw [heq2] at h2
    cases hr
    exact h2

/-- World for the C9 witness run: the token endpoint raises a transport
exception, so the forced refetch fails. -/
def c9Env : Env :=
  { times := fun _ => 0
  , tokenResp := fun _ => TokenOutcome.exn "network down"
  , convResp := fun _ => ConvOutcome.exn "unreachable"
  , sendResp := fun _ => SendOutcome.exn "unreachable"
  , actResp := fun _ => ActOutcome.exn "unreachable" }

/-- Session state for the C9 witness: no token cached, but a conversation
and watermark left over from an earlier token. -/
def c9RS : RunState :=
  { svc := { current_token := none, token_expires_at := none,
             conversation_id := some "conv0", watermark := some "w0" }
  , ctr := {}, trace := [] }

theorem refresh_resets_before_fetch_witness :
    ((ensure_token_available c9Env c9RS).2.svc.conversation_id = none ∧
     (ensure_token_available c9Env c9RS).2.svc.watermark = none)
    ∧ (ensure_token_available c9Env c9RS).1 = false :=
  ⟨refresh_resets_before_fetch c9Env c9RS (by decide), by decide⟩

/-- C5: the cached token is reusable exactly while `now < expiry - 300`.
When the clock read is inside the safe window, `ensure_token_available`
succeeds, leaves every session field untouched and issues no
token-generation HTTP call; otherwise it performs the refetch via
`generate_direct_line_token`, making exactly one more token-generation
call. -/
theorem token_reuse_safety_margin (env : Env) (rs : RunState) (exp : Int)
    (htok : strTruthy rs.svc.current_token = true)
    (hexp : rs.svc.token_expires_at = some exp)
    (hexp0 : exp ≠ 0) :
    (env.times rs.ctr.timeCalls < exp - 300 →
       (ensure_token_available env rs).1 = true ∧
       (ensure_token_available env rs).2.svc = rs.svc ∧
       (ensure_token_available env rs).2.ctr.tokenCalls = rs.ctr.tokenCalls)
    ∧ (¬ env.times rs.ctr.timeCalls < exp - 300 →
       (ensure_token_available env rs).2.ctr.tokenCalls = rs.ctr.tokenCalls + 1) := by
  have hi : intTruthy rs.svc.token_expires_at = true := by
    rw [hexp]; simp [intTruthy, hexp0]
  have hv1 : (tokenStillValid env rs).1 = decide (env.times rs.ctr.timeCalls < exp - 300) := by
    unfold tokenStillValid readTime
    rw [htok, hi]
    simp [hexp]
  have ts := tokenStillValid_state env rs
  rcases hr : ensure_token_available env rs with ⟨b, rs9⟩
  show (env.times rs.ctr.timeCalls < exp - 300 →
      b = true ∧ rs9.svc = rs.svc ∧ rs9.ctr.tokenCalls = rs.ctr.tokenCalls)
    ∧ (¬ env.times rs.ctr.timeCalls < exp - 300 →
      rs9.ctr.tokenCalls = rs.ctr.tokenCalls + 1)
  unfold ensure_token_available at hr
  split at hr
  case _ rs1 heq =>
    rw [heq] at ts hv1
    cases hr
    constructor
    · intro _
      exact ⟨rfl, ts.1, ts.2.2.1⟩
    · intro hge
      simp [hge] at hv1
  case _ rs1 heq =>
    rw [heq] at ts hv1
    constructor
    · intro hlt
      simp [hlt] at hv1
    · intro _
      split at hr
      rename_i r2 rs3 heq2
      have h2 := generate_ctr env
        { rs1 with svc := { rs1.svc with conversation_id := none, watermark := none } }
      rw [heq2] at h2
      cases hr
      exact h2.2.2.trans (congrArg (· + 1) ts.2.2.1)

/-- World for the C5 reuse witness: the clock reads 3000. -/
def c5Env : Env :=
  { times := fun _ => 3000
  , tokenResp := fun _ => TokenOutcome.exn "unused"
  , convResp := fun _ => ConvOutcome.exn "unused"
  , sendResp := fun _ => SendOutcome.exn "unused"
  , actResp := fun _ => ActOutcome.exn "unused" }

/-- World for the C5 refetch witness: the clock reads 3400, inside the
300-second safety margin of the expiry 3600. -/
def c5EnvLate : Env := { c5Env with times := fun _ => 3400 }

/-- Session state for the C5 witness: token fetched at time 0 with
`expires_in = 3600`. -/
def c5RS : RunState :=
  { svc := { current_token := some "tok", token_expires_at := some 3600,
             conversation_id := some "conv1", watermark := some "w1" }
  , ctr := {}, trace := [] }

theorem token_reuse_safety_margin_witness :
    ((ensure_token_available c5Env c5RS).1 = true ∧
     (ensure_token_available c5Env c5RS).2.svc = c5RS.svc ∧
     (ensure_token_available c5Env c5RS).2.ctr.tokenCalls = c5RS.ctr.tokenCalls)
    ∧ (ensure_token_available c5EnvLate c5RS).2.ctr.tokenCalls = c5RS.ctr.tokenCalls + 1 :=
  ⟨(token_reuse_safety_margin c5Env c5RS 3600 (by decide) rfl (by decide)).1 (by decide),
   (token_reuse_safety_margin c5EnvLate c5RS 3600 (by decide) rfl (by decide)).2 (by decide)⟩

/-- The bot-response collection characterized as filter-then-map: the texts
of exactly the activities whose sender differs from the local user
"user123" and whose text is present and non-empty, in stream order. -/
theorem botResponsesOf_filter_map (l : List Activity) :
    botResponsesOf l
      = (l.filter fun a => a.text.getD "" != "" && a.from_id.getD "unknown" != "user123").map
          fun a => a.text.getD "" := by
  induction l with
  | nil => rfl
  | cons a t ih =>
      simp only [botResponsesOf, List.filterMap_cons, List.filter_cons, ne_eq, ite_not] at ih ⊢
      by_cases h1 : a.text.getD "" = ""
      · simp [h1, ih]
      · by_cases h2 : a.from_id.getD "unknown" = "user123"
        · simp [h1, h2, ih]
        · simp [h1, h2, ih]

/-- The spec's concrete activity stream: a user message followed by two bot
messages. -/
def exampleActivities : List Activity :=
  [{ from_id := some "user123", text := some "hi" },
   { from_id := some "bot1", text := some "hello" },
   { from_id := some "bot1", text := some "welcome" }]

/-- C7: every successful poll's `bot_responses` list consists of exactly the
texts of the returned activities whose sender id is not "user123" and whose
text is non-empty, in stream order; on the spec's concrete stream the
result is `["hello", "welcome"]`. -/
theorem bot_response_filtering (env : Env) (ov : Option String) (rs : RunState)
    (acts : List Activity) (wm : Option String) (br : List String) (tot : Nat) (rs' : RunState)
    (h : get_activities env ov rs = (GetResult.success acts wm br tot, rs')) :
    (br = (acts.filter fun a => a.text.getD "" != "" && a.from_id.getD "unknown" != "user123").map
        fun a => a.text.getD "")
    ∧ botResponsesOf exampleActivities = ["hello", "welcome"] := by
  refine ⟨?_, by decide⟩
  unfold get_activities at h
  split at h
  case _ rs1 heq => simp at h
  case _ rs1 heq =>
    split at h
    · split at h
      case _ =>
        rename_i status activities nw text rs2 heq2
        split at h
        · cases h
          exact botResponsesOf_filter_map (activities.getD [])
        · simp at h
      case _ => simp at h
    · simp at h

/-- World for the C7 witness: the poll returns the spec's example stream. -/
def c7Env : Env :=
  { times := fun _ => 0
  , tokenResp := fun _ => TokenOutcome.exn "unused"
  , convResp := fun _ => ConvOutcome.exn "unused"
  , sendResp := fun _ => SendOutcome.exn "unused"
  , actResp := fun _ => ActOutcome.resp 200 (some exampleActivities) (some "w1") "" }

/-- Session state with a valid token and an established conversation. -/
def c7RS : RunState :=
  { svc := { current_token := some "tok", token_expires_at := some 3600,
             conversation_id := some "conv1", watermark := none }
  , ctr := {}, trace := [] }

theorem bot_response_filtering_witness :
    ((["hello", "welcome"] : List String)
        = (exampleActivities.filter fun a =>
              a.text.getD "" != "" && a.from_id.getD "unknown" != "user123").map
            fun a => a.text.getD "")
    ∧ botResponsesOf exampleActivities = ["hello", "welcome"] :=
  bot_response_filtering c7Env none c7RS exampleActivities (some "w1") ["hello", "welcome"] 3
    (get_activities c7Env none c7RS).2 (by decide)

/-- C8: on a successful (status 200) poll, the stored watermark is replaced
exactly when the response carries a truthy (non-empty) watermark — then it
equals the response's value; otherwise it keeps the value it had when the
GET was issued (the state left by the internal `ensure_token_available`). -/
theorem watermark_monotonic_replace (env : Env) (ov : Option String) (rs : RunState)
    (acts : List Activity) (wm : Option String) (br : List String) (tot : Nat) (rs' : RunState)
    (h : get_activities env ov rs = (GetResult.success acts wm br tot, rs')) :
    (strTruthy wm = true → rs'.svc.watermark = wm)
    ∧ (strTruthy wm = false →
        rs'.svc.watermark = (ensure_token_available env rs).2.svc.watermark) := by
  unfold get_activities at h
  split at h
  case _ rs1 heq => simp at h
  case _ rs1 heq =>
    split at h
    · split at h
      case _ =>
        rename_i status activities nw text rs2 heq2
        have hsvc : (httpActCall env (rs1.svc.conversation_id.getD "") ov rs1.svc.watermark rs1).2.svc
            = rs1.svc := rfl
        rw [heq2] at hsvc
        split at h
        · cases h
          constructor
          · intro htr
            rw [if_pos htr]
          · intro hfa
            rw [heq]
            rw [if_neg (by simp [hfa])]
            exact congrArg ServiceState.watermark hsvc
        · simp at h
      case _ => simp at h
    · simp at h

/-- Activity-poll responses for the C8 witness: the first poll reports
watermark "w1", the second "w2". -/
def c8Acts : Nat → ActOutcome
  | 0 => ActOutcome.resp 200 (some []) (some "w1") ""
  | _ => ActOutcome.resp 200 (some []) (some "w2") ""

/-- World for the C8 witness. -/
def c8Env : Env :=
  { times := fun _ => 0
  , tokenResp := fun _ => TokenOutcome.exn "unused"
  , convResp := fun _ => ConvOutcome.exn "unused"
  , sendResp := fun _ => SendOutcome.exn "unused"
  , actResp := c8Acts }

theorem watermark_monotonic_replace_witness :
    ((get_activities c8Env none (get_activities c8Env none c7RS).2).2.svc.watermark = some "w2")
    ∧ (get_activities c8Env none c7RS).2.svc.watermark = some "w1" :=
  ⟨(watermark_monotonic_replace c8Env none (get_activities c8Env none c7RS).2 [] (some "w2") [] 0
      (get_activities c8Env none (get_activities c8Env none c7RS).2).2 (by decide)).1 (by decide),
   by decide⟩

/-- One polling iteration that observes no bot response (a failed poll or an
empty `bot_responses` list) continues with the next attempt. -/
theorem sagrLoop_step_continue (env : Env) (msg : String) (w : Rat) (sr : SendResult)
    (mr : Int) (attempt fuel : Nat) (rs : RunState)
    (h : ((get_activities env none (recordSleep w rs)).1).hasBotResponses = false) :
    sagrLoop env msg w sr mr attempt (fuel + 1) rs
      = sagrLoop env msg w sr mr (attempt + 1) fuel (get_activities env none (recordSleep w rs)).2 := by
  rcases hg : get_activities env none (recordSleep w rs) with ⟨g, rs2⟩
  rw [hg] at h
  show sagrLoop env msg w sr mr attempt (fuel + 1) rs = sagrLoop env msg w sr mr (attempt + 1) fuel rs2
  simp only [sagrLoop]
  rw [hg]
  rcases g with ⟨acts, wm, br, tot⟩ | ⟨e, sc⟩
  · have hb : br = [] := by
      simpa [GetResult.hasBotResponses] using h
    simp [hb]
  · rfl

/-- One polling iteration that observes a non-empty `bot_responses` list
returns success immediately with `attempts = attempt + 1`. -/
theorem sagrLoop_step_success (env : Env) (msg : String) (w : Rat) (sr : SendResult)
    (mr : Int) (attempt fuel : Nat) (rs : RunState)
    (acts : List Activity) (wm : Option String) (br : List String) (tot : Nat) (rs2 : RunState)
    (hg : get_activities env none (recordSleep w rs) = (GetResult.success acts wm br tot, rs2))
    (hbr : br ≠ []) :
    sagrLoop env msg w sr mr attempt (fuel + 1) rs
      = (SAGRResult.success msg br sr (GetResult.success acts wm br tot) ((attempt : Int) + 1), rs2) := by
  simp only [sagrLoop]
  rw [hg]
  dsimp only
  rw [if_neg hbr]

/-- C2: first-success-wins at `max_retries = 5`: if the send succeeds, the
first poll yields no bot response (failure or empty list) and the second
poll succeeds with a non-empty `bot_responses` list, then the call returns
immediately after the second poll — the final state is the state right
after that poll, so no third to fifth attempt happens — reporting
`attempts = 2` and carrying the original message, the bot responses and the
underlying send and get results. -/
theorem first_success_wins_attempt2 (env : Env) (msg : String) (w : Rat) (rs0 : RunState)
    (sr : SendResult) (rs1 : RunState)
    (hsend : send_message env msg rs0 = (sr, rs1))
    (hok : sr.isSuccess = true)
    (g1 : GetResult) (rs2 : RunState)
    (h1 : get_activities env none (recordSleep w rs1) = (g1, rs2))
    (h1no : g1.hasBotResponses = false)
    (acts : List Activity) (wm : Option String) (br : List String) (tot : Nat) (rs3 : RunState)
    (h2 : get_activities env none (recordSleep w rs2) = (GetResult.success acts wm br tot, rs3))
    (hbr : br ≠ []) :
    send_and_get_response env msg w 5 rs0 =
      (SAGRResult.success msg br sr (GetResult.success acts wm br tot) 2, rs3) := by
  unfold send_and_get_response
  rw [hsend]
  show (if sr.isSuccess = true then sagrLoop env msg w sr 5 0 (Int.toNat 5) rs1
        else (SAGRResult.sendFailed sr, rs1)) = _
  rw [if_pos hok]
  show sagrLoop env msg w sr 5 0 (4 + 1) rs1 = _
  rw [sagrLoop_step_continue env msg w sr 5 0 4 rs1 (by rw [h1]; exact h1no)]
  rw [h1]
  show sagrLoop env msg w sr 5 1 (3 + 1) rs2 = _
  rw [sagrLoop_step_success env msg w sr 5 1 3 rs2 acts wm br tot rs3 h2 hbr]
  norm_num

/-- Activity-poll responses for the C2 witness: first poll empty, second
poll carries one bot message. -/
def c2Acts : Nat → ActOutcome
  | 0 => ActOutcome.resp 200 (some []) (some "w1") ""
  | _ => ActOutcome.resp 200 (some [{ from_id := some "bot1", text := some "hello" }]) (some "w2") ""

/-- World for the C2 witness. -/
def c2Env : Env :=
  { times := fun _ => 0
  , tokenResp := fun _ => TokenOutcome.resp 200 (some "tok") (some 3600) ""
  , convResp := fun _ => ConvOutcome.resp 200 (some "conv1") ""
  , sendResp := fun _ => SendOutcome.resp 200 true "ok" ""
  , actResp := c2Acts }

theorem first_success_wins_attempt2_witness :
    send_and_get_response c2Env "hi" 2 5 fresh
      = (SAGRResult.success "hi" ["hello"] (send_message c2Env "hi" fresh).1
           (GetResult.success [{ from_id := some "bot1", text := some "hello" }] (some "w2") ["hello"] 1) 2,
         (get_activities c2Env none (recordSleep 2
           (get_activities c2Env none (recordSleep 2 (send_message c2Env "hi" fresh).2)).2)).2) :=
  first_success_wins_attempt2 c2Env "hi" 2 fresh
    (send_message c2Env "hi" fresh).1 (send_message c2Env "hi" fresh).2 rfl (by decide)
    (get_activities c2Env none (recordSleep 2 (send_message c2Env "hi" fresh).2)).1
    (get_activities c2Env none (recordSleep 2 (send_message c2Env "hi" fresh).2)).2 rfl (by decide)
    [{ from_id := some "bot1", text := some "hello" }] (some "w2") ["hello"] 1
    (get_activities c2Env none (recordSleep 2
      (get_activities c2Env none (recordSleep 2 (send_message c2Env "hi" fresh).2)).2)).2
    (by decide) (by decide)

/-- If no poll against this world ever observes a bot response, the loop
runs all its iterations (sleeping once per attempt) and ends with the
exhaustion failure carrying `attempts = max_retries`. -/
theorem sagrLoop_exhausts (env : Env) (msg : String) (w : Rat) (sr : SendResult) (mr : Int)
    (hpoll : ∀ rs', ((get_activities env none rs').1).hasBotResponses = false) :
    ∀ fuel attempt rs,
      (sagrLoop env msg w sr mr attempt fuel rs).1
          = SAGRResult.exhausted (exhaustMsg mr) msg sr mr
      ∧ (sagrLoop env msg w sr mr attempt fuel rs).2.ctr.sleepCalls
          = rs.ctr.sleepCalls + fuel := by
  intro fuel
  induction fuel with
  | zero =>
      intro attempt rs
      exact ⟨rfl, rfl⟩
  | succ n ih =>
      intro attempt rs
      rw [sagrLoop_step_continue env msg w sr mr attempt n rs (hpoll _)]
      have hs := get_activities_sleep env none (recordSleep w rs)
      have hrec := ih (attempt + 1) (get_activities env none (recordSleep w rs)).2
      refine ⟨hrec.1, hrec.2.trans ?_⟩
      rw [hs]
      show rs.ctr.sleepCalls + 1 + n = rs.ctr.sleepCalls + (n + 1)
      omega

/-- C3: retry exhaustion: if the send succeeds but no poll against this
world ever yields a bot response (empty lists and outright poll failures
alike — neither aborts the loop), `send_and_get_response` returns the
exhaustion failure with `attempts = max_retries` and the original send
result attached, after sleeping once per attempt (`max_retries` times). -/
theorem retries_exhausted (env : Env) (msg : String) (w : Rat) (mr : Int) (rs0 : RunState)
    (sr : SendResult) (rs1 : RunState)
    (hsend : send_message env msg rs0 = (sr, rs1))
    (hok : sr.isSuccess = true)
    (hpoll : ∀ rs', ((get_activities env none rs').1).hasBotResponses = false) :
    (send_and_get_response env msg w mr rs0).1
        = SAGRResult.exhausted (exhaustMsg mr) msg sr mr
    ∧ (send_and_get_response env msg w mr rs0).2.ctr.sleepCalls
        = rs1.ctr.sleepCalls + mr.toNat := by
  have hloop := sagrLoop_exhausts env msg w sr mr hpoll mr.toNat 0 rs1
  unfold send_and_get_response
  rw [hsend]
  show ((if sr.isSuccess = true then sagrLoop env msg w sr mr 0 (Int.toNat mr) rs1
         else (SAGRResult.sendFailed sr, rs1)).1 = _)
    ∧ ((if sr.isSuccess = true then sagrLoop env msg w sr mr 0 (Int.toNat mr) rs1
         else (SAGRResult.sendFailed sr, rs1)).2.ctr.sleepCalls = _)
  rw [if_pos hok]
  exact hloop

/-- World for the C3 witness: every poll returns status 200 with an empty
activity list and no watermark. -/
def c3Env : Env :=
  { times := fun _ => 0
  , tokenResp := fun _ => TokenOutcome.resp 200 (some "tok") (some 3600) ""
  , convResp := fun _ => ConvOutcome.resp 200 (some "conv1") ""
  , sendResp := fun _ => SendOutcome.resp 200 true "ok" ""
  , actResp := fun _ => ActOutcome.resp 200 (some []) none "" }

/-- No poll against the C3 world ever observes a bot response: whatever the
session state, `get_activities` either fails or succeeds with an empty list. -/
theorem c3Env_never_bot_responses :
    ∀ rs', ((get_activities c3Env none rs').1).hasBotResponses = false := by
  intro rs'
  rcases h : get_activities c3Env none rs' with ⟨g, rs2⟩
  show g.hasBotResponses = false
  unfold get_activities at h
  split at h
  case _ rs1 heq => cases h; rfl
  case _ rs1 heq =>
    split at h
    · split at h
      case _ =>
        rename_i status acts nw text rs3 heq2
        have hfst : (httpActCall c3Env (rs1.svc.conversation_id.getD "") none rs1.svc.watermark rs1).1
            = ActOutcome.resp 200 (some []) none "" := rfl
        rw [heq2] at hfst
        injection hfst with hst hac hnw htx
        subst hst; subst hac; subst hnw
        simp [botResponsesOf, strTruthy] at h
        cases h.1
        rfl
      case _ =>
        rename_i m rs3 heq2
        have hfst : (httpActCall c3Env (rs1.svc.conversation_id.getD "") none rs1.svc.watermark rs1).1
            = ActOutcome.resp 200 (some []) none "" := rfl
        rw [heq2] at hfst
        simp at hfst
    · cases h; rfl

theorem retries_exhausted_witness :
    ((send_and_get_response c3Env "hi" 2 3 fresh).1
        = SAGRResult.exhausted (exhaustMsg 3) "hi" (send_message c3Env "hi" fresh).1 3)
    ∧ (send_and_get_response c3Env "hi" 2 3 fresh).2.ctr.sleepCalls
        = (send_message c3Env "hi" fresh).2.ctr.sleepCalls + (3 : Int).toNat :=
  retries_exhausted c3Env "hi" 2 3 fresh (send_message c3Env "hi" fresh).1
    (send_message c3Env "hi" fresh).2 rfl (by decide) c3Env_never_bot_responses

/-- C10: with `max_retries ≤ 0` the `range(max_retries)` loop body never
runs: after a successful send, `send_and_get_response` performs no poll and
no sleep and returns the exhaustion failure with `attempts = max_retries`
and the send result attached — a successful send alone never yields a
success result. -/
theorem zero_retry_exhaustion (env : Env) (msg : String) (w : Rat) (mr : Int)
    (rs : RunState) (sr : SendResult) (rs1 : RunState)
    (hmr : mr ≤ 0)
    (hsend : send_message env msg rs = (sr, rs1))
    (hok : sr.isSuccess = true) :
    send_and_get_response env msg w mr rs
        = (SAGRResult.exhausted (exhaustMsg mr) msg sr mr, rs1)
    ∧ rs1.ctr.actCalls = rs.ctr.actCalls
    ∧ rs1.ctr.sleepCalls = rs.ctr.sleepCalls := by
  have hp := send_message_act_sleep env msg rs
  rw [hsend] at hp
  have h0 : mr.toNat = 0 := Int.toNat_of_nonpos hmr
  refine ⟨?_, hp.1, hp.2⟩
  unfold send_and_get_response
  rw [hsend]
  show (if sr.isSuccess = true then sagrLoop env msg w sr mr 0 (Int.toNat mr) rs1
        else (SAGRResult.sendFailed sr, rs1)) = _
  rw [if_pos hok, h0]
  rfl

theorem zero_retry_exhaustion_witness :
    (send_and_get_response c1Env "hi" 2 0 fresh
        = (SAGRResult.exhausted (exhaustMsg 0) "hi" (send_message c1Env "hi" fresh).1 0,
           (send_message c1Env "hi" fresh).2)
     ∧ (send_message c1Env "hi" fresh).2.ctr.actCalls = fresh.ctr.actCalls
     ∧ (send_message c1Env "hi" fresh).2.ctr.sleepCalls = fresh.ctr.sleepCalls)
    ∧ send_and_get_response c1Env "hi" 2 (-2) fresh
        = (SAGRResult.exhausted (exhaustMsg (-2)) "hi" (send_message c1Env "hi" fresh).1 (-2),
           (send_message c1Env "hi" fresh).2) :=
  ⟨zero_retry_exhaustion c1Env "hi" 2 0 fresh (send_message c1Env "hi" fresh).1
     (send_message c1Env "hi" fresh).2 (by decide) rfl (by decide),
   (zero_retry_exhaustion c1Env "hi" 2 (-2) fresh (send_message c1Env "hi" fresh).1
     (send_message c1Env "hi" fresh).2 (by decide) rfl (by decide)).1⟩
